import Mathlib

/-!
Shallow embedding of `src/main.rs` of the `solana-demo` repository: a
Yellowstone gRPC ("Geyser") account/slot subscription client built around
`backoff::future::retry`.

The wire-message types are modelled from the `yellowstone-grpc-proto`
message definitions the source constructs and consumes; the retry/backoff
semantics are modelled from the `backoff` crate (v0.4) that the source
instantiates with `ExponentialBackoff::default()` at src/main.rs:208.
Rust `HashMap`s that the source only ever fills with a single key are
modelled as association lists; durations are in nanoseconds as `Nat`.
-/

deriving instance DecidableEq for Except

namespace SolanaDemo

/-! ## Subscription request model (`yellowstone_grpc_proto::prelude`) -/

/-- Models `SubscribeRequestFilterAccountsFilter`, the oneof of account
value predicates.  The source only ever builds empty lists of these. -/
inductive AccountsFilterPredicate where
  | memcmp (offset : Nat) (data : List Nat)
  | datasize (n : Nat)
  | tokenAccountState (b : Bool)
  | lamports (cmpKind : Nat) (value : Nat)
deriving DecidableEq

/-- Models `SubscribeRequestFilterAccounts` (src/main.rs:189-194). -/
structure SubscribeRequestFilterAccounts where
  nonempty_txn_signature : Option Bool
  account : List String
  owner : List String
  filters : List AccountsFilterPredicate
deriving DecidableEq

/-- Models `SubscribeRequestFilterSlots` (src/main.rs:199-202). -/
structure SubscribeRequestFilterSlots where
  filter_by_commitment : Option Bool
  interslot_updates : Option Bool
deriving DecidableEq

/-- Models `SubscribeRequestFilterTransactions`. -/
structure SubscribeRequestFilterTransactions where
  vote : Option Bool
  failed : Option Bool
  signature : Option String
  account_include : List String
  account_exclude : List String
  account_required : List String
deriving DecidableEq

/-- Models `SubscribeRequestFilterBlocks`. -/
structure SubscribeRequestFilterBlocks where
  account_include : List String
  include_transactions : Option Bool
  include_accounts : Option Bool
  include_entries : Option Bool
deriving DecidableEq

/-- Models `SubscribeRequestAccountsDataSlice`. -/
structure SubscribeRequestAccountsDataSlice where
  offset : Nat
  length : Nat
deriving DecidableEq

/-- Models `SubscribeRequestPing` (the client-side ping, carried inside a
`SubscribeRequest`; this is the only outbound message shape a pong reply
could take). -/
structure SubscribeRequestPing where
  id : Int
deriving DecidableEq

/-- Models `SubscribeRequest`.  `blocks_meta` and `entry` filters are empty
proto messages, modelled as `Unit`. -/
structure SubscribeRequest where
  accounts : List (String × SubscribeRequestFilterAccounts)
  slots : List (String × SubscribeRequestFilterSlots)
  transactions : List (String × SubscribeRequestFilterTransactions)
  transactions_status : List (String × SubscribeRequestFilterTransactions)
  blocks : List (String × SubscribeRequestFilterBlocks)
  blocks_meta : List (String × Unit)
  entry : List (String × Unit)
  commitment : Option Nat
  accounts_data_slice : List SubscribeRequestAccountsDataSlice
  ping : Option SubscribeRequestPing
deriving DecidableEq

/-- `SubscribeRequest::default()`: every map empty, every optional unset. -/
def SubscribeRequest.default : SubscribeRequest :=
  { accounts := [], slots := [], transactions := [], transactions_status := []
    blocks := [], blocks_meta := [], entry := [], commitment := none
    accounts_data_slice := [], ping := none }

/-- The subscription request built once in `main` (src/main.rs:186-206):
one account filter named "all" with every list empty and no
non-empty-signature requirement, one slot filter named "all" with
commitment gating disabled and inter-slot updates enabled; every other
field keeps its `Default::default()` value. -/
def request : SubscribeRequest :=
  { SubscribeRequest.default with
    accounts := [("all",
      { nonempty_txn_signature := none, account := [], owner := [], filters := [] })]
    slots := [("all",
      { filter_by_commitment := some false, interslot_updates := some true })] }

/-! ## Configuration (`Config` and `Config::from_env`, src/main.rs:16-118) -/

/-- The process environment: variable name to value, `none` when unset
(or, as in `std::env::var`, not valid unicode — both take the error
branch of `env::var` and are indistinguishable to `from_env`). -/
abbrev EnvMap : Type := String → Option String

/-- Decimal value of an ASCII digit character, `none` otherwise. -/
def digitVal (c : Char) : Option Nat :=
  if 48 ≤ c.toNat ∧ c.toNat ≤ 57 then some (c.toNat - 48) else none

/-- Left-to-right accumulation of decimal digits; fails on the first
non-digit character. -/
def parseDigitsAux : List Char → Nat → Option Nat
  | [], acc => some acc
  | c :: rest, acc =>
    match digitVal c with
    | some d => parseDigitsAux rest (acc * 10 + d)
    | none => none

/-- Unbounded decimal parse of a string: all characters must be ASCII
digits and the string must be nonempty (Rust's integer `FromStr` also
permits one leading `+`, a cosmetic case omitted here). -/
def parseNatStr (s : String) : Option Nat :=
  match s.data with
  | [] => none
  | l => parseDigitsAux l 0

/-- Models `str::parse::<u64>` (also `usize` on a 64-bit target): decimal
digits only, failing on anything else or on overflow past `u64::MAX`. -/
def parseU64 (s : String) : Option Nat :=
  match parseNatStr s with
  | some n => if n < 18446744073709551616 then some n else none
  | none => none

/-- Models `str::parse::<u32>`. -/
def parseU32 (s : String) : Option Nat :=
  match parseNatStr s with
  | some n => if n < 4294967296 then some n else none
  | none => none

/-- Models `str::parse::<bool>`: exactly "true" or "false". -/
def parseBool (s : String) : Option Bool :=
  if s = "true" then some true else if s = "false" then some false else none

/-- Models the `Config` struct (src/main.rs:16-57). -/
structure Config where
  endpoint : String
  ca_certificate : Option String
  x_token : Option String
  connect_timeout_ms : Option Nat
  buffer_size : Option Nat
  http2_adaptive_window : Option Bool
  http2_keep_alive_interval_ms : Option Nat
  initial_connection_window_size : Option Nat
  initial_stream_window_size : Option Nat
  keep_alive_timeout_ms : Option Nat
  keep_alive_while_idle : Option Bool
  tcp_keepalive_ms : Option Nat
  tcp_nodelay : Option Bool
  timeout_ms : Option Nat
  max_decoding_message_size : Nat
deriving DecidableEq

/-- Models `env::var(key).ok().and_then(|s| s.parse::<u64>().ok())`. -/
def optEnvU64 (env : EnvMap) (key : String) : Option Nat :=
  (env key).bind parseU64

/-- Models `Config::from_env` (src/main.rs:60-118).  `dotenv().ok()` merges
the `.env` file into the environment ignoring errors; `env` here is the
already-merged environment.  Every field falls back on absence or parse
failure, and the function body is one big `Ok(Self { .. })`. -/
def Config.from_env (env : EnvMap) : Except String Config :=
  .ok {
    endpoint := (env "YELLOWSTONE_GRPC_URL").getD "http://127.0.0.1:10000"
    ca_certificate := env "CA_CERTIFICATE"
    x_token := env "X_TOKEN"
    connect_timeout_ms := optEnvU64 env "CONNECT_TIMEOUT_MS"
    buffer_size := (env "BUFFER_SIZE").bind parseU64
    http2_adaptive_window := (env "HTTP2_ADAPTIVE_WINDOW").bind parseBool
    http2_keep_alive_interval_ms := optEnvU64 env "HTTP2_KEEP_ALIVE_INTERVAL_MS"
    initial_connection_window_size := (env "INITIAL_CONNECTION_WINDOW_SIZE").bind parseU32
    initial_stream_window_size := (env "INITIAL_STREAM_WINDOW_SIZE").bind parseU32
    keep_alive_timeout_ms := optEnvU64 env "KEEP_ALIVE_TIMEOUT_MS"
    keep_alive_while_idle := (env "KEEP_ALIVE_WHILE_IDLE").bind parseBool
    tcp_keepalive_ms := optEnvU64 env "TCP_KEEPALIVE_MS"
    tcp_nodelay := (env "TCP_NODELAY").bind parseBool
    timeout_ms := optEnvU64 env "TIMEOUT_MS"
    max_decoding_message_size :=
      match env "MAX_DECODING_MESSAGE_SIZE" with
      | some s => (parseU64 s).getD (1024 * 1024 * 1024)
      | none => 1024 * 1024 * 1024
  }

/-- A config with every optional unset, as produced by `Config::from_env`
on an empty environment; used to instantiate the supervisor in concrete
runs (only `endpoint` is ever read by the modelled code, for a log line). -/
def cfg0 : Config :=
  { endpoint := "http://127.0.0.1:10000", ca_certificate := none, x_token := none
    connect_timeout_ms := none, buffer_size := none, http2_adaptive_window := none
    http2_keep_alive_interval_ms := none, initial_connection_window_size := none
    initial_stream_window_size := none, keep_alive_timeout_ms := none
    keep_alive_while_idle := none, tcp_keepalive_ms := none, tcp_nodelay := none
    timeout_ms := none, max_decoding_message_size := 1073741824 }

/-! ## Inbound messages and the dispatch loop (src/main.rs:231-250) -/

/-- Models `prost_types::Timestamp`. -/
structure Timestamp where
  seconds : Int
  nanos : Int
deriving DecidableEq

/-- Models the fallible `SystemTime::try_from(Timestamp)` conversion of
`prost-types` used at src/main.rs:236: it fails when the timestamp falls
outside the representable time range and succeeds on ordinary in-range
values.  The exact platform range is abstracted; the dispatch loop depends
only on success versus failure. -/
def Timestamp.toSystemTime (t : Timestamp) : Option (Int × Int) :=
  if 0 ≤ t.seconds ∧ 0 ≤ t.nanos ∧ t.nanos < 1000000000 then
    some (t.seconds, t.nanos)
  else none

/-- Models `SubscribeUpdateAccountInfo` (the account payload). -/
structure SubscribeUpdateAccountInfo where
  pubkey : List Nat
  owner : List Nat
  txn_signature : Option (List Nat)
  data : List Nat
deriving DecidableEq

/-- Models `SubscribeUpdateAccount`. -/
structure SubscribeUpdateAccount where
  account : Option SubscribeUpdateAccountInfo
  slot : Nat
  is_startup : Bool
deriving DecidableEq

/-- Models the `update_oneof` payload of `SubscribeUpdate`: the tagged
union of inbound message kinds.  The server ping carries no id
(`SubscribeUpdatePing` is an empty proto message); the server pong echoes
an id. -/
inductive UpdateOneof where
  | account (a : SubscribeUpdateAccount)
  | slot (slot : Nat) (parent : Option Nat) (status : Nat)
  | ping
  | pong (id : Int)
  | other
deriving DecidableEq

/-- Models `SubscribeUpdate`: filters that matched, the payload oneof, and
the server-side creation timestamp. -/
structure SubscribeUpdate where
  filters : List String
  update_oneof : Option UpdateOneof
  created_at : Option Timestamp
deriving DecidableEq

/-- Observable events of one connection attempt, in program order: the
`zero_attempts` mutex bookkeeping (src/main.rs:215-221), the connect call,
the log lines `info!`/`error!` emits, and the subscribe request going out
on the wire. -/
inductive LogEvent where
  | lockAcquired
  | retryingNotice
  | lockReleased
  | connectStart
  | connectedNotice (endpoint : String)
  | subscribeSent (r : SubscribeRequest)
  | streamOpenedNotice
  | receivedUpdate (m : SubscribeUpdate)
  | streamErrorNotice (e : String)
  | streamClosedNotice
  | connectionErrorNotice (e : String)
deriving DecidableEq

/-- How one invocation of the closure handed to `retry` ends:
`ok` maps to `Ok(())`, `transientErr` to `Err(backoff::Error::Transient)`
(both the explicit `map_err(backoff::Error::transient)` at src/main.rs:223
and the `From<E> for backoff::Error<E>` conversion the `?` operator applies
at src/main.rs:235-237), and `panicked` to a panic unwinding out of the
closure (the `.expect` at src/main.rs:228). -/
inductive ClosureOutcome where
  | ok
  | transientErr (e : String)
  | panicked (msg : String)
deriving DecidableEq

/-- Result of running the dispatch loop on the remaining inbound items:
the events it emits from that point on, the messages it writes to the
outbound `subscribe_tx` side (the loop body contains no send call, so no
branch ever extends this list), and how the closure ends. -/
structure DispatchResult where
  events : List LogEvent
  outbound : List SubscribeRequest
  outcome : ClosureOutcome
deriving DecidableEq

/-- The `while let Some(message) = stream.next().await` loop
(src/main.rs:231-250).  An `Ok` message must carry a convertible
`created_at`: if it is absent the `?` at src/main.rs:235 returns
`Err("no created_at in the message")` from the closure, and if conversion
fails the `?` at src/main.rs:237 returns `Err("failed to parse
created_at")`; otherwise the raw message is logged and the loop continues.
A stream-level `Err` is logged and breaks the loop; after the loop (by
break or end of stream) "Stream closed" is logged and the closure returns
`Ok(())`. -/
def dispatchLoop : List (Except String SubscribeUpdate) → DispatchResult
  | [] => { events := [.streamClosedNotice], outbound := [], outcome := .ok }
  | .ok msg :: rest =>
    match msg.created_at with
    | none =>
      { events := [], outbound := []
        outcome := .transientErr "no created_at in the message" }
    | some ts =>
      match ts.toSystemTime with
      | none =>
        { events := [], outbound := []
          outcome := .transientErr "failed to parse created_at" }
      | some _ =>
        let r := dispatchLoop rest
        { r with events := .receivedUpdate msg :: r.events }
  | .error e :: _ =>
    { events := [.streamErrorNotice e, .streamClosedNotice], outbound := []
      outcome := .ok }

/-! ## One attempt of the retry closure (src/main.rs:213-252) -/

/-- The external world's response to one connection attempt: the connect
call fails, or connect succeeds but `subscribe_with_request` fails (the
`.expect("订阅失败")` then panics), or the subscription opens and the
stream delivers the given items before ending. -/
inductive AttemptEnv where
  | connectErr (e : String)
  | subscribeErr
  | streamOk (items : List (Except String SubscribeUpdate))
deriving DecidableEq

/-- What one closure invocation produced. -/
structure AttemptResult where
  events : List LogEvent
  outbound : List SubscribeRequest
  zeroAttemptsAfter : Bool
  outcome : ClosureOutcome
deriving DecidableEq

/-- The `zero_attempts` critical section (src/main.rs:215-221): acquire
the lock, on the first attempt just clear the flag, otherwise log the
retrying notice, then release the lock — all before the connect call. -/
def bookkeepingEvents (zeroAttempts : Bool) : List LogEvent :=
  .lockAcquired :: ((if zeroAttempts then [] else [.retryingNotice]) ++ [.lockReleased])

/-- The extra log the `.inspect_err` combinator at src/main.rs:252 emits
when the closure resolves to an error. -/
def inspectErrEvents : ClosureOutcome → List LogEvent
  | .transientErr e => [.connectionErrorNotice e]
  | _ => []

/-- One invocation of the closure passed to `retry` (src/main.rs:213-252):
mutex bookkeeping, `config.connect()` (failure wrapped as
`backoff::Error::transient`), `subscribe_with_request(Some(request.clone()))`
(failure panics via `.expect`), then the dispatch loop.  The subscribe
request put on the wire is always the `req` argument — `main` clones the
one immutable `request` value for every attempt. -/
def attemptRun (zeroAttempts : Bool) (cfg : Config) (req : SubscribeRequest)
    (env : AttemptEnv) : AttemptResult :=
  let book := bookkeepingEvents zeroAttempts
  match env with
  | .connectErr e =>
    { events := book ++ [.connectStart] ++ inspectErrEvents (.transientErr e)
      outbound := []
      zeroAttemptsAfter := false
      outcome := .transientErr e }
  | .subscribeErr =>
    { events := book ++ [.connectStart, .connectedNotice cfg.endpoint, .subscribeSent req]
      outbound := [req]
      zeroAttemptsAfter := false
      outcome := .panicked "订阅失败" }
  | .streamOk items =>
    let d := dispatchLoop items
    { events := book ++ [.connectStart, .connectedNotice cfg.endpoint,
        .subscribeSent req, .streamOpenedNotice] ++ d.events ++ inspectErrEvents d.outcome
      outbound := req :: d.outbound
      zeroAttemptsAfter := false
      outcome := d.outcome }

/-! ## Backoff policy (`backoff` crate v0.4, `ExponentialBackoff::default()`) -/

/-- `default::INITIAL_INTERVAL_MILLIS` = 500 ms, in nanoseconds. -/
def initialIntervalNs : Nat := 500000000

/-- `default::MAX_INTERVAL_MILLIS` = 60 s, in nanoseconds. -/
def maxIntervalNs : Nat := 60000000000

/-- `default::MAX_ELAPSED_TIME_MILLIS` = 900 s (15 minutes), in
nanoseconds; `ExponentialBackoff::default()` sets `max_elapsed_time` to
`Some` of this value. -/
def maxElapsedNs : Nat := 900000000000

/-- The backoff state the crate mutates across `next_backoff` calls: the
nominal current interval, and the wall-clock time elapsed since the policy
was created (modelled as the sum of sleeps performed so far — attempts
themselves are treated as instantaneous, which only delays exhaustion
relative to the real clock). -/
structure BackoffState where
  currentInterval : Nat
  elapsed : Nat
deriving DecidableEq

/-- The state `ExponentialBackoff::default()` starts in. -/
def BackoffState.initial : BackoffState :=
  { currentInterval := initialIntervalNs, elapsed := 0 }

/-- A jitter draw `d` for current interval `ci` is one the crate's
`get_random_value_from_interval` can produce with the default
`randomization_factor` of 0.5: uniform in `[ci - ci/2, ci + ci/2)`. -/
def drawValid (ci d : Nat) : Prop := ci - ci / 2 ≤ d ∧ d < ci + ci / 2

instance (ci d : Nat) : Decidable (drawValid ci d) :=
  inferInstanceAs (Decidable (ci - ci / 2 ≤ d ∧ d < ci + ci / 2))

/-- The state change one `next_backoff` call makes when it does yield a
sleep: the nominal interval grows by the multiplier 1.5 (modelled as exact
`* 3 / 2` on nanoseconds), capped at `max_interval`, and elapsed time
grows by the sleep `draw` actually performed. -/
def BackoffState.advance (st : BackoffState) (draw : Nat) : BackoffState :=
  { currentInterval := min (st.currentInterval * 3 / 2) maxIntervalNs
    elapsed := st.elapsed + draw }

/-- `ExponentialBackoff::next_backoff` with the default parameters:
return `None` once the elapsed time exceeds `max_elapsed_time`; otherwise
return the jittered sleep `draw` and the advanced state. -/
def nextBackoff (st : BackoffState) (draw : Nat) : Option (Nat × BackoffState) :=
  if maxElapsedNs < st.elapsed then none
  else some (draw, st.advance draw)

/-! ## The retry loop (`backoff::future::retry`, src/main.rs:208-253) -/

/-- Per-process trace: the events of each closure invocation in order, and
the backoff sleeps performed between them. -/
structure RunTrace where
  attemptEvents : List (List LogEvent)
  sleeps : List Nat
deriving DecidableEq

/-- Prepend one attempt (and the sleep that followed it, if any) to a
trace. -/
def RunTrace.consAttempt (evs : List LogEvent) (s : Option Nat) (tr : RunTrace) : RunTrace :=
  { attemptEvents := evs :: tr.attemptEvents
    sleeps := match s with | some d => d :: tr.sleeps | none => tr.sleeps }

/-- How the whole process ends: `exitOk` is `main` returning `Ok(())`
(exit code 0), `exitErr` is the retry loop giving up and the error
propagating out of `main` (non-zero exit), `panicked` is a panic unwinding
out of the closure (non-zero exit), and `outOfFuel` marks a run still
going when the fuel bound is reached. -/
inductive ProcessResult where
  | exitOk (tr : RunTrace)
  | exitErr (e : String) (tr : RunTrace)
  | panicked (msg : String) (tr : RunTrace)
  | outOfFuel (tr : RunTrace)
deriving DecidableEq

def ProcessResult.trace : ProcessResult → RunTrace
  | .exitOk tr => tr
  | .exitErr _ tr => tr
  | .panicked _ tr => tr
  | .outOfFuel tr => tr

def ProcessResult.isExitOk : ProcessResult → Bool
  | .exitOk _ => true
  | _ => false

def ProcessResult.isExitErr : ProcessResult → Bool
  | .exitErr _ _ => true
  | _ => false

def ProcessResult.panicMsg : ProcessResult → Option String
  | .panicked m _ => some m
  | _ => none

/-- Apply a trace transformation, keeping the way the process ended. -/
def ProcessResult.mapTrace (f : RunTrace → RunTrace) : ProcessResult → ProcessResult
  | .exitOk tr => .exitOk (f tr)
  | .exitErr e tr => .exitErr e (f tr)
  | .panicked m tr => .panicked m (f tr)
  | .outOfFuel tr => .outOfFuel (f tr)

/-- `backoff::future::retry` specialised to the closure in `main`
(src/main.rs:208-253): run the closure; `Ok` ends the whole retry call
successfully, a panic unwinds, and `Err(Transient)` asks the policy for
the next sleep — `None` makes `retry` resolve to that error (which `main`
then returns, a non-zero exit), `Some` sleeps and reattempts.  `envs k` is
the world's response to attempt `k`, `sample k ci` the jitter drawn for
the `k`-th backoff with nominal interval `ci`, and `fuel` bounds the
number of attempts modelled (the real loop has no such bound). -/
def retryLoop (cfg : Config) (req : SubscribeRequest) (envs : Nat → AttemptEnv)
    (sample : Nat → Nat → Nat) :
    Nat → Nat → Bool → BackoffState → ProcessResult
  | 0, _, _, _ => .outOfFuel { attemptEvents := [], sleeps := [] }
  | fuel + 1, k, zeroAttempts, st =>
    let a := attemptRun zeroAttempts cfg req (envs k)
    match a.outcome with
    | .ok => .exitOk { attemptEvents := [a.events], sleeps := [] }
    | .panicked m => .panicked m { attemptEvents := [a.events], sleeps := [] }
    | .transientErr e =>
      match nextBackoff st (sample k st.currentInterval) with
      | none => .exitErr e { attemptEvents := [a.events], sleeps := [] }
      | some (d, st') =>
        (retryLoop cfg req envs sample fuel (k + 1) a.zeroAttemptsAfter st').mapTrace
          (RunTrace.consAttempt a.events (some d))

/-- The whole supervised run as `main` starts it: attempt counter at 0,
`zero_attempts` flag set, backoff policy freshly defaulted. -/
def retryProcess (cfg : Config) (req : SubscribeRequest) (envs : Nat → AttemptEnv)
    (sample : Nat → Nat → Nat) (fuel : Nat) : ProcessResult :=
  retryLoop cfg req envs sample fuel 0 true BackoffState.initial

/-! ## Counting helpers and concrete scenario data -/

def isRetryingEvent : LogEvent → Bool
  | .retryingNotice => true
  | _ => false

def countRetrying (l : List LogEvent) : Nat := (l.filter isRetryingEvent).length

/-- The retrying-notice count of each attempt of a run, in order. -/
def retryingCounts (pr : ProcessResult) : List Nat :=
  pr.trace.attemptEvents.map countRetrying

/-- Adjacent-pairs check for the claimed "each sleep is greater than or
equal to the previous one". -/
def pairwiseNondecreasing : List Nat → Bool
  | [] => true
  | [_] => true
  | a :: b :: rest => decide (a ≤ b) && pairwiseNondecreasing (b :: rest)

/-- The list `[0, 1, 1, ..., 1]` of length `n` (or `[]` when `n = 0`). -/
def zeroOnes : Nat → List Nat
  | 0 => []
  | n + 1 => 0 :: List.replicate n 1

def isStreamOpenedEvent : LogEvent → Bool
  | .streamOpenedNotice => true
  | _ => false

def countStreamOpened (l : List LogEvent) : Nat := (l.filter isStreamOpenedEvent).length

def isPingItem : Except String SubscribeUpdate → Bool
  | .ok m => match m.update_oneof with
    | some .ping => true
    | _ => false
  | .error _ => false

/-- Number of server pings among the inbound items. -/
def pingCount (items : List (Except String SubscribeUpdate)) : Nat :=
  (items.filter isPingItem).length

/-- Number of pong/ping-acknowledgement messages among outbound requests
(a pong reply is a `SubscribeRequest` whose `ping` field is set). -/
def pongCount (l : List SubscribeRequest) : Nat :=
  (l.filter (fun r => r.ping.isSome)).length

/-- A server-side timestamp well inside every representable range. -/
def ts0 : Timestamp := { seconds := 1700000000, nanos := 0 }

def accountMsgX : SubscribeUpdate :=
  { filters := ["all"]
    update_oneof := some (.account
      { account := some { pubkey := [1, 2], owner := [9], txn_signature := none, data := [0] }
        slot := 100, is_startup := false })
    created_at := some ts0 }

def accountMsgY : SubscribeUpdate :=
  { filters := ["all"]
    update_oneof := some (.account
      { account := some { pubkey := [3, 4], owner := [9], txn_signature := none, data := [1] }
        slot := 101, is_startup := false })
    created_at := some ts0 }

def pingMsg : SubscribeUpdate :=
  { filters := [], update_oneof := some .ping, created_at := some ts0 }

def slotMsg : SubscribeUpdate :=
  { filters := ["all"], update_oneof := some (.slot 12345 (some 12344) 0)
    created_at := some ts0 }

/-- A message whose required `created_at` field is absent. -/
def noCreatedAtMsg : SubscribeUpdate :=
  { filters := ["all"], update_oneof := some (.slot 12346 (some 12345) 0)
    created_at := none }

/-- Scenario B of the spec: Account(X), then a server ping, then
Account(Y). -/
def streamB : List (Except String SubscribeUpdate) :=
  [.ok accountMsgX, .ok pingMsg, .ok accountMsgY]

/-- Scenario C of the spec: a message failing required-field decode,
followed by a valid slot update. -/
def streamC : List (Except String SubscribeUpdate) :=
  [.ok noCreatedAtMsg, .ok slotMsg]

/-- Scenario D of the spec: five well-formed messages, then the stream
ends cleanly. -/
def streamD : List (Except String SubscribeUpdate) :=
  [.ok accountMsgX, .ok slotMsg, .ok pingMsg, .ok accountMsgY, .ok slotMsg]

/-- A stream that ends with a stream-level receive error. -/
def streamErrEnd : List (Except String SubscribeUpdate) :=
  [.ok accountMsgX, .error "h2 protocol error"]

/-- A short healthy stream used as the post-reconnect attempt. -/
def streamGood : List (Except String SubscribeUpdate) :=
  [.ok slotMsg]

/-- World where the connector always fails. -/
def envAllConnectFail : Nat → AttemptEnv :=
  fun _ => .connectErr "connection refused"

/-- World where the connector fails exactly three times, then the stream
opens and stays healthy. -/
def envFail3 : Nat → AttemptEnv :=
  fun k => if k < 3 then .connectErr "connection refused" else .streamOk streamGood

/-- World where the first stream delivers the malformed-then-slot items of
scenario C and every later attempt is healthy. -/
def envC : Nat → AttemptEnv
  | 0 => .streamOk streamC
  | _ + 1 => .streamOk streamGood

/-- An adversarial (but legal, see `drawValid`) jitter schedule: draw high
on the first backoff and low on the second. -/
def advSample : Nat → Nat → Nat :=
  fun k ci => if k = 0 then 700000000 else if k = 1 then 375000000 else ci

/-- The jitter-free schedule: always draw the nominal interval itself. -/
def nominalSample : Nat → Nat → Nat := fun _ ci => ci

/-- A concrete environment with only an unparseable
`MAX_DECODING_MESSAGE_SIZE` set. -/
def env0 : EnvMap :=
  fun k => if k = "MAX_DECODING_MESSAGE_SIZE" then some "garbage" else none

/-! ## Basic facts about the dispatch loop and one attempt -/

theorem dispatchLoop_outbound (items : List (Except String SubscribeUpdate)) :
    (dispatchLoop items).outbound = [] := by
  induction items with
  | nil => rfl
  | cons hd tl ih =>
    cases hd with
    | error e => rfl
    | ok msg =>
      cases hca : msg.created_at with
      | none => simp [dispatchLoop, hca]
      | some ts =>
        cases hts : ts.toSystemTime with
        | none => simp [dispatchLoop, hca, hts]
        | some v => simp [dispatchLoop, hca, hts, ih]

theorem dispatchLoop_filter_retrying (items : List (Except String SubscribeUpdate)) :
    (dispatchLoop items).events.filter isRetryingEvent = [] := by
  induction items with
  | nil => rfl
  | cons hd tl ih =>
    cases hd with
    | error e => rfl
    | ok msg =>
      cases hca : msg.created_at with
      | none => simp [dispatchLoop, hca]
      | some ts =>
        cases hts : ts.toSystemTime with
        | none => simp [dispatchLoop, hca, hts]
        | some v => simp [dispatchLoop, hca, hts, isRetryingEvent, ih]

theorem dispatchLoop_no_subscribeSent (r : SubscribeRequest)
    (items : List (Except String SubscribeUpdate)) :
    LogEvent.subscribeSent r ∉ (dispatchLoop items).events := by
  induction items with
  | nil => simp [dispatchLoop]
  | cons hd tl ih =>
    cases hd with
    | error e => simp [dispatchLoop]
    | ok msg =>
      cases hca : msg.created_at with
      | none => simp [dispatchLoop, hca]
      | some ts =>
        cases hts : ts.toSystemTime with
        | none => simp [dispatchLoop, hca, hts]
        | some v => simp [dispatchLoop, hca, hts, ih]

theorem inspectErr_filter_retrying (o : ClosureOutcome) :
    (inspectErrEvents o).filter isRetryingEvent = [] := by
  cases o <;> rfl

theorem inspectErr_no_subscribeSent (o : ClosureOutcome) (r : SubscribeRequest) :
    LogEvent.subscribeSent r ∉ inspectErrEvents o := by
  cases o <;> simp [inspectErrEvents]

theorem attemptRun_zeroAfter (z : Bool) (cfg : Config) (req : SubscribeRequest)
    (env : AttemptEnv) : (attemptRun z cfg req env).zeroAttemptsAfter = false := by
  cases env <;> rfl

theorem attemptRun_streamOk_outcome (z : Bool) (cfg : Config) (req : SubscribeRequest)
    (items : List (Except String SubscribeUpdate)) :
    (attemptRun z cfg req (.streamOk items)).outcome = (dispatchLoop items).outcome := rfl

theorem attemptRun_countRetrying (z : Bool) (cfg : Config) (req : SubscribeRequest)
    (env : AttemptEnv) :
    countRetrying (attemptRun z cfg req env).events = if z then 0 else 1 := by
  cases env with
  | connectErr e =>
    cases z <;>
      simp [attemptRun, bookkeepingEvents, countRetrying, inspectErrEvents, isRetryingEvent]
  | subscribeErr =>
    cases z <;>
      simp [attemptRun, bookkeepingEvents, countRetrying, isRetryingEvent]
  | streamOk items =>
    rcases ho : (dispatchLoop items).outcome with _ | e | m <;> cases z <;>
      simp [attemptRun, bookkeepingEvents, countRetrying, inspectErrEvents, isRetryingEvent,
        List.filter_append, dispatchLoop_filter_retrying, ho]

theorem attemptRun_eventShape (z : Bool) (cfg : Config) (req : SubscribeRequest)
    (env : AttemptEnv) :
    ∃ rest, (attemptRun z cfg req env).events =
      .lockAcquired :: ((if z then [] else [.retryingNotice]) ++
        .lockReleased :: .connectStart :: rest) := by
  cases env <;> cases z <;> exact ⟨_, rfl⟩

theorem attemptRun_subscribeSent (z : Bool) (cfg : Config) (req : SubscribeRequest)
    (env : AttemptEnv) (r : SubscribeRequest)
    (h : LogEvent.subscribeSent r ∈ (attemptRun z cfg req env).events) : r = req := by
  cases env with
  | connectErr e =>
    cases z <;> simp [attemptRun, bookkeepingEvents, inspectErrEvents] at h
  | subscribeErr =>
    cases z <;> simp [attemptRun, bookkeepingEvents] at h <;> exact h
  | streamOk items =>
    cases z <;> simp [attemptRun, bookkeepingEvents] at h <;>
      rcases h with h | h | h
    case true.inl => exact h
    case true.inr.inl => exact absurd h (dispatchLoop_no_subscribeSent r items)
    case true.inr.inr => exact absurd h (inspectErr_no_subscribeSent _ r)
    case false.inl => exact h
    case false.inr.inl => exact absurd h (dispatchLoop_no_subscribeSent r items)
    case false.inr.inr => exact absurd h (inspectErr_no_subscribeSent _ r)

/-! ## Step characterisation of the retry loop -/

theorem mapTrace_trace (f : RunTrace → RunTrace) (pr : ProcessResult) :
    (pr.mapTrace f).trace = f pr.trace := by
  cases pr <;> rfl

theorem retryLoop_step_ok {cfg : Config} {req : SubscribeRequest} {envs : Nat → AttemptEnv}
    {sample : Nat → Nat → Nat} {fuel k : Nat} {z : Bool} {st : BackoffState}
    (h : (attemptRun z cfg req (envs k)).outcome = .ok) :
    retryLoop cfg req envs sample (fuel + 1) k z st =
      .exitOk { attemptEvents := [(attemptRun z cfg req (envs k)).events], sleeps := [] } := by
  simp [retryLoop, h]

theorem retryLoop_step_panic {cfg : Config} {req : SubscribeRequest} {envs : Nat → AttemptEnv}
    {sample : Nat → Nat → Nat} {fuel k : Nat} {z : Bool} {st : BackoffState} {m : String}
    (h : (attemptRun z cfg req (envs k)).outcome = .panicked m) :
    retryLoop cfg req envs sample (fuel + 1) k z st =
      .panicked m { attemptEvents := [(attemptRun z cfg req (envs k)).events], sleeps := [] } := by
  simp [retryLoop, h]

theorem retryLoop_step_exhausted {cfg : Config} {req : SubscribeRequest}
    {envs : Nat → AttemptEnv} {sample : Nat → Nat → Nat} {fuel k : Nat} {z : Bool}
    {st : BackoffState} {e : String}
    (h : (attemptRun z cfg req (envs k)).outcome = .transientErr e)
    (hel : maxElapsedNs < st.elapsed) :
    retryLoop cfg req envs sample (fuel + 1) k z st =
      .exitErr e { attemptEvents := [(attemptRun z cfg req (envs k)).events], sleeps := [] } := by
  simp [retryLoop, h, nextBackoff, hel]

theorem retryLoop_step_retry {cfg : Config} {req : SubscribeRequest}
    {envs : Nat → AttemptEnv} {sample : Nat → Nat → Nat} {fuel k : Nat} {z : Bool}
    {st : BackoffState} {e : String}
    (h : (attemptRun z cfg req (envs k)).outcome = .transientErr e)
    (hel : ¬ maxElapsedNs < st.elapsed) :
    retryLoop cfg req envs sample (fuel + 1) k z st =
      (retryLoop cfg req envs sample fuel (k + 1) false
          (st.advance (sample k st.currentInterval))).mapTrace
        (RunTrace.consAttempt (attemptRun z cfg req (envs k)).events
          (some (sample k st.currentInterval))) := by
  simp [retryLoop, h, nextBackoff, hel, attemptRun_zeroAfter]

theorem retryingCounts_consAttempt (evs : List LogEvent) (s : Option Nat)
    (pr : ProcessResult) :
    retryingCounts (pr.mapTrace (RunTrace.consAttempt evs s)) =
      countRetrying evs :: retryingCounts pr := by
  cases pr <;>
    simp [retryingCounts, ProcessResult.mapTrace, ProcessResult.trace, RunTrace.consAttempt]

theorem retryLoop_counts_false (cfg : Config) (req : SubscribeRequest)
    (envs : Nat → AttemptEnv) (sample : Nat → Nat → Nat) :
    ∀ fuel k st, ∃ n,
      retryingCounts (retryLoop cfg req envs sample fuel k false st) = List.replicate n 1 := by
  intro fuel
  induction fuel with
  | zero => intro k st; exact ⟨0, rfl⟩
  | succ fuel ih =>
    intro k st
    rcases ho : (attemptRun false cfg req (envs k)).outcome with _ | e | m
    · rw [retryLoop_step_ok ho]
      exact ⟨1, by
        simp [retryingCounts, ProcessResult.trace, attemptRun_countRetrying, List.replicate]⟩
    · by_cases hel : maxElapsedNs < st.elapsed
      · rw [retryLoop_step_exhausted ho hel]
        exact ⟨1, by
          simp [retryingCounts, ProcessResult.trace, attemptRun_countRetrying, List.replicate]⟩
      · rw [retryLoop_step_retry ho hel]
        obtain ⟨n, hn⟩ := ih (k + 1) (st.advance (sample k st.currentInterval))
        refine ⟨n + 1, ?_⟩
        rw [retryingCounts_consAttempt, hn, attemptRun_countRetrying]
        simp [List.replicate]
    · rw [retryLoop_step_panic ho]
      exact ⟨1, by
        simp [retryingCounts, ProcessResult.trace, attemptRun_countRetrying, List.replicate]⟩

theorem retryLoop_counts_true (cfg : Config) (req : SubscribeRequest)
    (envs : Nat → AttemptEnv) (sample : Nat → Nat → Nat) :
    ∀ fuel k st, ∃ n,
      retryingCounts (retryLoop cfg req envs sample fuel k true st) = zeroOnes n := by
  intro fuel
  cases fuel with
  | zero => intro k st; exact ⟨0, rfl⟩
  | succ fuel =>
    intro k st
    rcases ho : (attemptRun true cfg req (envs k)).outcome with _ | e | m
    · rw [retryLoop_step_ok ho]
      exact ⟨1, by
        simp [retryingCounts, ProcessResult.trace, attemptRun_countRetrying, zeroOnes]⟩
    · by_cases hel : maxElapsedNs < st.elapsed
      · rw [retryLoop_step_exhausted ho hel]
        exact ⟨1, by
          simp [retryingCounts, ProcessResult.trace, attemptRun_countRetrying, zeroOnes]⟩
      · rw [retryLoop_step_retry ho hel]
        obtain ⟨n, hn⟩ :=
          retryLoop_counts_false cfg req envs sample fuel (k + 1)
            (st.advance (sample k st.currentInterval))
        refine ⟨n + 1, ?_⟩
        rw [retryingCounts_consAttempt, hn, attemptRun_countRetrying]
        simp [zeroOnes]
    · rw [retryLoop_step_panic ho]
      exact ⟨1, by
        simp [retryingCounts, ProcessResult.trace, attemptRun_countRetrying, zeroOnes]⟩

theorem retryLoop_sent (cfg : Config) (req : SubscribeRequest)
    (envs : Nat → AttemptEnv) (sample : Nat → Nat → Nat) :
    ∀ fuel k z st evs r,
      evs ∈ (retryLoop cfg req envs sample fuel k z st).trace.attemptEvents →
      LogEvent.subscribeSent r ∈ evs → r = req := by
  intro fuel
  induction fuel with
  | zero =>
    intro k z st evs r hm _
    simp [retryLoop, ProcessResult.trace] at hm
  | succ fuel ih =>
    intro k z st evs r hm hs
    rcases ho : (attemptRun z cfg req (envs k)).outcome with _ | e | m
    · rw [retryLoop_step_ok ho] at hm
      simp [ProcessResult.trace] at hm
      subst hm
      exact attemptRun_subscribeSent _ _ _ _ _ hs
    · by_cases hel : maxElapsedNs < st.elapsed
      · rw [retryLoop_step_exhausted ho hel] at hm
        simp [ProcessResult.trace] at hm
        subst hm
        exact attemptRun_subscribeSent _ _ _ _ _ hs
      · rw [retryLoop_step_retry ho hel] at hm
        rw [mapTrace_trace] at hm
        simp [RunTrace.consAttempt] at hm
        rcases hm with rfl | hm
        · exact attemptRun_subscribeSent _ _ _ _ _ hs
        · exact ih (k + 1) false _ evs r hm hs
    · rw [retryLoop_step_panic ho] at hm
      simp [ProcessResult.trace] at hm
      subst hm
      exact attemptRun_subscribeSent _ _ _ _ _ hs

/-! ## Claim C1 -/

/-- C1 counterexample: after Scenario D's stream (five messages, clean
end) the retry call resolves `Ok` — exactly one attempt, no backoff sleep,
and the process exits successfully — contradicting the claim that the
supervisor applies the backoff interval, sleeps, and starts a new
connection attempt rather than exiting the retry loop. -/
theorem c1_counterexample :
    (retryProcess cfg0 request (fun _ => .streamOk streamD) nominalSample 5).isExitOk = true ∧
    (retryProcess cfg0 request (fun _ => .streamOk streamD) nominalSample 5).trace.sleeps = [] ∧
    (retryProcess cfg0 request
        (fun _ => .streamOk streamD) nominalSample 5).trace.attemptEvents.length = 1 := by
  decide

/-- C1 (amended): whenever the dispatch loop terminates — the inbound
stream ended without error, or a stream-level receive error broke the
loop — the closure returns `Ok(())`, and the supervisor treats both
outcomes identically as success: no backoff is applied, no sleep occurs,
no new connection attempt starts, and the retry loop (hence `main`) exits
normally. -/
theorem c1_amended_stream_end_exits (cfg : Config) (req : SubscribeRequest)
    (sample : Nat → Nat → Nat) (items : List (Except String SubscribeUpdate)) (fuel : Nat)
    (h : (dispatchLoop items).outcome = .ok) :
    retryProcess cfg req (fun _ => .streamOk items) sample (fuel + 1) =
      .exitOk { attemptEvents := [(attemptRun true cfg req (.streamOk items)).events]
                sleeps := [] } := by
  have ho : (attemptRun true cfg req ((fun _ => AttemptEnv.streamOk items) 0)).outcome =
      .ok := by
    rw [attemptRun_streamOk_outcome]
    exact h
  exact retryLoop_step_ok ho

/-- Witness for C1 at both terminal-state kinds: Scenario D (clean end of
stream) and a stream that ends with a receive error. -/
theorem c1_witness :
    ((dispatchLoop streamD).outcome = .ok ∧
      retryProcess cfg0 request (fun _ => .streamOk streamD) nominalSample (4 + 1) =
        .exitOk { attemptEvents := [(attemptRun true cfg0 request (.streamOk streamD)).events]
                  sleeps := [] }) ∧
    ((dispatchLoop streamErrEnd).outcome = .ok ∧
      retryProcess cfg0 request (fun _ => .streamOk streamErrEnd) nominalSample (4 + 1) =
        .exitOk
          { attemptEvents := [(attemptRun true cfg0 request (.streamOk streamErrEnd)).events]
            sleeps := [] }) :=
  ⟨⟨by decide, c1_amended_stream_end_exits cfg0 request nominalSample streamD 4 (by decide)⟩,
   ⟨by decide,
     c1_amended_stream_end_exits cfg0 request nominalSample streamErrEnd 4 (by decide)⟩⟩

/-! ## Claim C2 -/

/-- C2 counterexample: in the Scenario B stream [Account(X), Ping,
Account(Y)] exactly one ping arrives but the dispatcher enqueues zero
pong/ping-acknowledgement messages on the outbound sender — the claimed
"exactly one pong per ping" fails. -/
theorem c2_counterexample :
    pingCount streamB = 1 ∧
    (dispatchLoop streamB).outbound = [] ∧
    pongCount (dispatchLoop streamB).outbound ≠ pingCount streamB := by
  decide

/-- C2 (amended): the dispatch loop never enqueues any message on the
outbound sender — no pong is ever sent in response to a ping; in the
stream [Account(X), Ping, Account(Y)] all three messages are logged in
their arrival order with zero outbound control messages in between. -/
theorem c2_amended_no_pong :
    (∀ items, (dispatchLoop items).outbound = []) ∧
    ((dispatchLoop streamB).events =
        [.receivedUpdate accountMsgX, .receivedUpdate pingMsg, .receivedUpdate accountMsgY,
          .streamClosedNotice] ∧
      pongCount (dispatchLoop streamB).outbound = 0 ∧
      pingCount streamB = 1) :=
  ⟨dispatchLoop_outbound, by decide, by decide, by decide⟩

/-! ## Claim C3 -/

/-- C3 counterexample: on Scenario C's stream (a message with no
`created_at`, then a valid slot update) the dispatch loop returns a
transient error — tearing the whole attempt down — and the valid slot
update is never forwarded, contradicting the claim that the failure is
confined to the single message. -/
theorem c3_counterexample :
    (dispatchLoop streamC).outcome = .transientErr "no created_at in the message" ∧
    LogEvent.receivedUpdate slotMsg ∉ (dispatchLoop streamC).events ∧
    (dispatchLoop streamC).events = [] := by
  decide

/-- C3 (amended): a required-field decode failure is not confined to the
failing message: the `?` operator returns the error from the whole
closure, so the dispatch loop stops immediately (no later message of the
stream is read or forwarded) and the attempt ends with a transient error,
after which the supervisor applies backoff, sleeps once and reconnects —
the stream is torn down. -/
theorem c3_amended_decode_error_aborts_attempt :
    (∀ rest, (dispatchLoop (.ok noCreatedAtMsg :: rest)).outcome =
        .transientErr "no created_at in the message" ∧
      (dispatchLoop (.ok noCreatedAtMsg :: rest)).events = []) ∧
    ((retryProcess cfg0 request envC nominalSample 5).isExitOk = true ∧
      (retryProcess cfg0 request envC nominalSample 5).trace.sleeps = [500000000] ∧
      (retryProcess cfg0 request envC nominalSample 5).trace.attemptEvents.length = 2) :=
  ⟨fun _ => ⟨rfl, rfl⟩, by decide, by decide, by decide⟩

/-! ## Claim C4 -/

/-- C4 counterexample: when `subscribe_with_request` fails after a
successful connect, the process is aborted by the `.expect("订阅失败")`
panic from inside the retry loop — not by normal error propagation (not
`exitErr`) and not a normal exit (not `exitOk`) — contradicting the claim
that no such path aborts the process. -/
theorem c4_counterexample :
    (retryProcess cfg0 request (fun _ => .subscribeErr) nominalSample 5).panicMsg =
      some "订阅失败" ∧
    (retryProcess cfg0 request (fun _ => .subscribeErr) nominalSample 5).isExitOk = false ∧
    (retryProcess cfg0 request (fun _ => .subscribeErr) nominalSample 5).isExitErr = false := by
  decide

/-- C4 (amended): a failure to open the subscription stream after a
successful connect aborts the process by panic (`expect`) from inside the
retry loop, not by error propagation: whichever attempt it strikes, the
retry loop ends in the `panicked` state with the `expect` message. -/
theorem c4_amended_subscribe_failure_panics (cfg : Config) (req : SubscribeRequest)
    (envs : Nat → AttemptEnv) (sample : Nat → Nat → Nat) (fuel k : Nat) (z : Bool)
    (st : BackoffState) (h : envs k = .subscribeErr) :
    retryLoop cfg req envs sample (fuel + 1) k z st =
      .panicked "订阅失败"
        { attemptEvents := [(attemptRun z cfg req .subscribeErr).events], sleeps := [] } := by
  have ho : (attemptRun z cfg req (envs k)).outcome = .panicked "订阅失败" := by
    rw [h]; cases z <;> rfl
  rw [retryLoop_step_panic ho, h]

/-- Witness for C4: the very first attempt hits a subscribe failure. -/
theorem c4_witness :
    ((fun _ : Nat => AttemptEnv.subscribeErr) 0 = AttemptEnv.subscribeErr) ∧
    retryLoop cfg0 request (fun _ => .subscribeErr) nominalSample (4 + 1) 0 true
        BackoffState.initial =
      .panicked "订阅失败"
        { attemptEvents := [(attemptRun true cfg0 request .subscribeErr).events]
          sleeps := [] } :=
  ⟨rfl,
    c4_amended_subscribe_failure_panics cfg0 request (fun _ => .subscribeErr) nominalSample
      4 0 true BackoffState.initial rfl⟩

/-! ## Claim C5 -/

/-- C5 counterexample: with the connector failing on every attempt and
jitter-free draws, the retry loop does not retry indefinitely — after 25
backoff sleeps the policy's `max_elapsed_time` (15 minutes) is exhausted,
`next_backoff` returns `None`, the 26th attempt's error propagates out of
`retry`, and the process exits non-zero. -/
theorem c5_counterexample :
    (retryProcess cfg0 request envAllConnectFail nominalSample 40).isExitErr = true ∧
    (retryProcess cfg0 request envAllConnectFail nominalSample 40).trace.sleeps.length = 25 ∧
    (retryProcess cfg0 request
        envAllConnectFail nominalSample 40).trace.attemptEvents.length = 26 := by
  decide

/-- C5 (amended): every connect failure is classified transient (wrapped
by `backoff::Error::transient`) and, while the policy's elapsed time has
not passed `max_elapsed_time`, the supervisor sleeps the drawn interval
and reattempts; but once elapsed time exceeds `max_elapsed_time` the
policy yields `None`, the connect error propagates out of the retry loop,
and the process exits with it — retries are not indefinite. -/
theorem c5_amended_transient_until_exhaustion :
    (∀ (z : Bool) (cfg : Config) (req : SubscribeRequest) (e : String),
      (attemptRun z cfg req (.connectErr e)).outcome = .transientErr e) ∧
    (∀ (st : BackoffState) (d : Nat), ¬ maxElapsedNs < st.elapsed →
      nextBackoff st d = some (d, st.advance d)) ∧
    (∀ (cfg : Config) (req : SubscribeRequest) (envs : Nat → AttemptEnv)
        (sample : Nat → Nat → Nat) (fuel k : Nat) (z : Bool) (st : BackoffState) (e : String),
      envs k = .connectErr e → ¬ maxElapsedNs < st.elapsed →
      retryLoop cfg req envs sample (fuel + 1) k z st =
        (retryLoop cfg req envs sample fuel (k + 1) false
            (st.advance (sample k st.currentInterval))).mapTrace
          (RunTrace.consAttempt (attemptRun z cfg req (.connectErr e)).events
            (some (sample k st.currentInterval)))) ∧
    (∀ (cfg : Config) (req : SubscribeRequest) (envs : Nat → AttemptEnv)
        (sample : Nat → Nat → Nat) (fuel k : Nat) (z : Bool) (st : BackoffState) (e : String),
      envs k = .connectErr e → maxElapsedNs < st.elapsed →
      retryLoop cfg req envs sample (fuel + 1) k z st =
        .exitErr e { attemptEvents := [(attemptRun z cfg req (.connectErr e)).events]
                     sleeps := [] }) := by
  refine ⟨?_, ?_, ?_, ?_⟩
  · intro z cfg req e; cases z <;> rfl
  · intro st d hel; simp [nextBackoff, hel]
  · intro cfg req envs sample fuel k z st e h hel
    have ho : (attemptRun z cfg req (envs k)).outcome = .transientErr e := by
      rw [h]; cases z <;> rfl
    rw [retryLoop_step_retry ho hel, h]
  · intro cfg req envs sample fuel k z st e h hel
    have ho : (attemptRun z cfg req (envs k)).outcome = .transientErr e := by
      rw [h]; cases z <;> rfl
    rw [retryLoop_step_exhausted ho hel, h]

/-- Witness for C5: one fresh-state retry step and one exhausted-state
exit, both at concrete inputs. -/
theorem c5_witness :
    (¬ maxElapsedNs < BackoffState.initial.elapsed) ∧
    nextBackoff BackoffState.initial 500000000 =
      some (500000000, BackoffState.initial.advance 500000000) ∧
    (envAllConnectFail 0 = .connectErr "connection refused") ∧
    retryLoop cfg0 request envAllConnectFail nominalSample (3 + 1) 0 true
        BackoffState.initial =
      (retryLoop cfg0 request envAllConnectFail nominalSample 3 1 false
          (BackoffState.initial.advance
            (nominalSample 0 BackoffState.initial.currentInterval))).mapTrace
        (RunTrace.consAttempt
          (attemptRun true cfg0 request (.connectErr "connection refused")).events
          (some (nominalSample 0 BackoffState.initial.currentInterval))) ∧
    (maxElapsedNs <
      (BackoffState.mk 60000000000 900000000001).elapsed) ∧
    retryLoop cfg0 request envAllConnectFail nominalSample (0 + 1) 5 true
        (BackoffState.mk 60000000000 900000000001) =
      .exitErr "connection refused"
        { attemptEvents :=
            [(attemptRun true cfg0 request (.connectErr "connection refused")).events]
          sleeps := [] } :=
  ⟨by decide,
    c5_amended_transient_until_exhaustion.2.1 BackoffState.initial 500000000 (by decide),
    rfl,
    c5_amended_transient_until_exhaustion.2.2.1 cfg0 request envAllConnectFail nominalSample
      3 0 true BackoffState.initial "connection refused" rfl (by decide),
    by decide,
    c5_amended_transient_until_exhaustion.2.2.2 cfg0 request envAllConnectFail nominalSample
      0 5 true (BackoffState.mk 60000000000 900000000001) "connection refused" rfl
      (by decide)⟩

/-! ## Claim C6 -/

/-- C6 counterexample: with the connector failing three times then
succeeding and a legal jitter schedule (every draw inside the crate's
randomized interval for `randomization_factor` 0.5), the three backoff
sleeps are 700 ms, 375 ms, 1125 ms — the second is smaller than the
first, so the sleep sequence is not non-decreasing as claimed. -/
theorem c6_counterexample :
    drawValid 500000000 (advSample 0 500000000) ∧
    drawValid 750000000 (advSample 1 750000000) ∧
    drawValid 1125000000 (advSample 2 1125000000) ∧
    (retryProcess cfg0 request envFail3 advSample 10).trace.sleeps =
      [700000000, 375000000, 1125000000] ∧
    pairwiseNondecreasing
      (retryProcess cfg0 request envFail3 advSample 10).trace.sleeps = false := by
  decide

/-- C6 (amended): the *nominal* backoff interval sequence is non-decreasing
and bounded by the configured maximum interval (each `next_backoff` call
returns the drawn sleep and advances the nominal interval monotonically up
to the cap), and when the connector fails exactly three times and then
succeeds, exactly three backoff sleeps occur before the single successful
stream open; the actual sleeps are the nominal intervals perturbed by up
to ±50 % jitter, so with jitter-free draws they are themselves
non-decreasing, but under jitter successive sleeps may decrease. -/
theorem c6_amended_nominal_monotone :
    (∀ (st : BackoffState) (d s : Nat) (st' : BackoffState),
      st.currentInterval ≤ maxIntervalNs → nextBackoff st d = some (s, st') →
      s = d ∧ st.currentInterval ≤ st'.currentInterval ∧
        st'.currentInterval ≤ maxIntervalNs) ∧
    ((retryProcess cfg0 request envFail3 nominalSample 10).trace.sleeps =
        [500000000, 750000000, 1125000000] ∧
      pairwiseNondecreasing
        (retryProcess cfg0 request envFail3 nominalSample 10).trace.sleeps = true ∧
      (retryProcess cfg0 request envFail3 nominalSample 10).isExitOk = true ∧
      countStreamOpened
        (retryProcess cfg0 request envFail3 nominalSample 10).trace.attemptEvents.flatten =
        1) := by
  constructor
  · intro st d s st' hci h
    rw [nextBackoff] at h
    split at h
    · exact absurd h (by simp)
    · rw [Option.some.injEq, Prod.mk.injEq] at h
      obtain ⟨hs, hst⟩ := h
      subst hst
      refine ⟨hs.symm, ?_, ?_⟩
      · refine le_min ?_ hci
        rw [Nat.le_div_iff_mul_le (by norm_num)]
        omega
      · exact Nat.min_le_right _ _
  · exact ⟨by decide, by decide, by decide, by decide⟩

/-- Witness for C6: the monotonicity part applied to the initial backoff
state with the nominal draw. -/
theorem c6_witness :
    BackoffState.initial.currentInterval ≤ maxIntervalNs ∧
    nextBackoff BackoffState.initial 500000000 =
      some (500000000, BackoffState.initial.advance 500000000) ∧
    ((500000000 : Nat) = 500000000 ∧
      BackoffState.initial.currentInterval ≤
        (BackoffState.initial.advance 500000000).currentInterval ∧
      (BackoffState.initial.advance 500000000).currentInterval ≤ maxIntervalNs) :=
  ⟨by decide, by decide,
    c6_amended_nominal_monotone.1 BackoffState.initial 500000000 500000000
      (BackoffState.initial.advance 500000000) (by decide) (by decide)⟩

/-! ## Claim C7 -/

/-- C7: on the very first closure invocation (the `zero_attempts` flag
still set) no retrying notice is emitted and on every later invocation
exactly one is; in every attempt the mutex is released before the connect
call starts (the lock-release event immediately precedes the
connect-start event, with only the bookkeeping before it); and over any
whole run the per-attempt retrying-notice counts are `[0, 1, 1, ...]`. -/
theorem c7_first_attempt_silent :
    (∀ (cfg : Config) (req : SubscribeRequest) (env : AttemptEnv),
      countRetrying (attemptRun true cfg req env).events = 0) ∧
    (∀ (cfg : Config) (req : SubscribeRequest) (env : AttemptEnv),
      countRetrying (attemptRun false cfg req env).events = 1) ∧
    (∀ (z : Bool) (cfg : Config) (req : SubscribeRequest) (env : AttemptEnv),
      ∃ rest, (attemptRun z cfg req env).events =
        .lockAcquired :: ((if z then [] else [.retryingNotice]) ++
          .lockReleased :: .connectStart :: rest)) ∧
    (∀ (cfg : Config) (req : SubscribeRequest) (envs : Nat → AttemptEnv)
        (sample : Nat → Nat → Nat) (fuel k : Nat) (st : BackoffState),
      ∃ n, retryingCounts (retryLoop cfg req envs sample fuel k true st) = zeroOnes n) :=
  ⟨fun cfg req env => by rw [attemptRun_countRetrying]; rfl,
   fun cfg req env => by rw [attemptRun_countRetrying]; rfl,
   fun z cfg req env => attemptRun_eventShape z cfg req env,
   fun cfg req envs sample fuel k st => retryLoop_counts_true cfg req envs sample fuel k st⟩

/-! ## Claim C8 -/

/-- C8: request construction has no hidden mutable state — the
subscription request put on the wire by any attempt of any run is exactly
the one `request` value built at startup, so the wire payloads of any two
attempts are structurally identical. -/
theorem c8_request_identical_across_attempts :
    (∀ (cfg : Config) (envs : Nat → AttemptEnv) (sample : Nat → Nat → Nat)
        (fuel k : Nat) (z : Bool) (st : BackoffState) (evs : List LogEvent)
        (r : SubscribeRequest),
      evs ∈ (retryLoop cfg request envs sample fuel k z st).trace.attemptEvents →
      LogEvent.subscribeSent r ∈ evs → r = request) ∧
    (∀ (cfg : Config) (z1 z2 : Bool) (e1 e2 : AttemptEnv) (r1 r2 : SubscribeRequest),
      LogEvent.subscribeSent r1 ∈ (attemptRun z1 cfg request e1).events →
      LogEvent.subscribeSent r2 ∈ (attemptRun z2 cfg request e2).events → r1 = r2) :=
  ⟨fun cfg envs sample fuel k z st evs r hm hs =>
      retryLoop_sent cfg request envs sample fuel k z st evs r hm hs,
   fun cfg z1 z2 e1 e2 r1 r2 h1 h2 =>
      (attemptRun_subscribeSent z1 cfg request e1 r1 h1).trans
        (attemptRun_subscribeSent z2 cfg request e2 r2 h2).symm⟩

/-- Witness for C8: two different attempts (first and non-first, different
stream contents) both send `request`, and the process-level part applied
to a concrete one-attempt run. -/
theorem c8_witness :
    ((attemptRun true cfg0 request (.streamOk streamGood)).events ∈
        (retryLoop cfg0 request (fun _ => .streamOk streamGood) nominalSample 1 0 true
            BackoffState.initial).trace.attemptEvents ∧
      LogEvent.subscribeSent request ∈
        (attemptRun true cfg0 request (.streamOk streamGood)).events ∧
      LogEvent.subscribeSent request ∈
        (attemptRun false cfg0 request (.streamOk streamD)).events) ∧
    request = request ∧ request = request :=
  ⟨⟨by decide, by decide, by decide⟩,
   c8_request_identical_across_attempts.1 cfg0 (fun _ => .streamOk streamGood) nominalSample
     1 0 true BackoffState.initial
     (attemptRun true cfg0 request (.streamOk streamGood)).events request (by decide)
     (by decide),
   c8_request_identical_across_attempts.2 cfg0 true false (.streamOk streamGood)
     (.streamOk streamD) request request (by decide) (by decide)⟩

/-! ## Claim C9 -/

/-- C9: `Config::from_env` never returns an error for any environment
contents: it always yields a config, the endpoint defaults to
"http://127.0.0.1:10000" when the variable is unset, and a
`MAX_DECODING_MESSAGE_SIZE` that is unset or fails to parse falls back to
1 GiB — no configuration value can trigger the fatal startup-error path
from this function. -/
theorem c9_from_env_total (env : EnvMap) :
    ∃ c, Config.from_env env = .ok c ∧
      (env "YELLOWSTONE_GRPC_URL" = none → c.endpoint = "http://127.0.0.1:10000") ∧
      (∀ s, env "MAX_DECODING_MESSAGE_SIZE" = some s → parseU64 s = none →
        c.max_decoding_message_size = 1024 * 1024 * 1024) ∧
      (env "MAX_DECODING_MESSAGE_SIZE" = none →
        c.max_decoding_message_size = 1024 * 1024 * 1024) := by
  refine ⟨_, rfl, ?_, ?_, ?_⟩
  · intro h; simp [h]
  · intro s hs hp; simp [hs, hp]
  · intro h; simp [h]

/-- Witness for C9 at a concrete environment whose only variable is an
unparseable `MAX_DECODING_MESSAGE_SIZE`. -/
theorem c9_witness :
    ∃ c, Config.from_env env0 = .ok c ∧ c.endpoint = "http://127.0.0.1:10000" ∧
      c.max_decoding_message_size = 1024 * 1024 * 1024 := by
  obtain ⟨c, hc, h1, h2, _h3⟩ := c9_from_env_total env0
  exact ⟨c, hc, h1 (by decide), h2 "garbage" (by decide) (by decide)⟩

/-! ## Claim C10 -/

/-- C10: the subscription request constructed at startup subscribes to
everything: exactly one account filter named "all" with empty account,
owner and predicate lists and no non-empty-signature requirement, and
exactly one slot filter named "all" with commitment gating disabled
(`Some(false)`) and inter-slot updates enabled (`Some(true)`). -/
theorem c10_request_subscribes_all :
    request.accounts = [("all",
      { nonempty_txn_signature := none, account := [], owner := [], filters := [] })] ∧
    request.slots = [("all",
      { filter_by_commitment := some false, interslot_updates := some true })] ∧
    request.transactions = [] ∧ request.blocks = [] ∧ request.commitment = none ∧
    request.ping = none :=
  ⟨rfl, rfl, rfl, rfl, rfl, rfl⟩

end SolanaDemo
